import Mathlib

/-!
Shallow embedding of the LineageAI chat-view augmentation scripts:
the copy-button injector (two variants: an icon-based one and a
text-label one), the scroll policy engine, and the bootstrap retry
loop, together with theorems about their behaviour.
-/

set_option linter.unusedVariables false

/-! ## Affordance injector (addCopyButtons, both variants) -/

/-- A rendered child of a `pre` element: the `code` element holding the
snippet text, or an injected `copy-code-button` with its visible label
(the icon variant's button shows an icon and contributes no text, so its
label is `""`; the text variant's button shows `"Copy"`). -/
inductive PreChild where
  | code (text : String)
  | button (label : String)
deriving DecidableEq, Repr

/-- A `pre` element under the container, as a list of rendered children. -/
structure PreElement where
  children : List PreChild
deriving DecidableEq, Repr

/-- The rendered text a child contributes to the enclosing element's
`innerText`. -/
def PreChild.renderedText : PreChild → String
  | .code t => t
  | .button l => l

/-- Whether a child is a `copy-code-button`. -/
def PreChild.isCopyButton : PreChild → Bool
  | .code _ => false
  | .button _ => true

/-- Embeds `preElement.innerText`: concatenation of the rendered text of the
children, in document order. -/
def PreElement.innerText (p : PreElement) : String :=
  String.join (p.children.map PreChild.renderedText)

/-- Embeds the test that `preElement.querySelector('.copy-code-button')` is non-null. -/
def PreElement.hasCopyButton (p : PreElement) : Bool :=
  p.children.any PreChild.isCopyButton

/-- Number of copy buttons attached to the block. -/
def PreElement.buttonCount (p : PreElement) : Nat :=
  (p.children.filter PreChild.isCopyButton).length

/-- Embeds `preElement.querySelector('code')`: the first `code` descendant's
rendered text, if any. -/
def PreElement.firstCodeText (p : PreElement) : Option String :=
  match p.children.filterMap (fun c => match c with
    | .code t => some t
    | .button _ => none) with
  | [] => none
  | t :: _ => some t

/-- One step of `addCopyButtons` on a single `pre` element: if a
`.copy-code-button` already exists, return unchanged; otherwise append a
button with the given label to the element's children. -/
def injectButton (label : String) (p : PreElement) : PreElement :=
  if p.hasCopyButton then p
  else { children := p.children ++ [PreChild.button label] }

/-- Embeds `addCopyButtons` of the icon variant: scan every matching `pre` and
inject an icon button (no visible text) where none exists. -/
def addCopyButtonsIcon (ps : List PreElement) : List PreElement :=
  ps.map (injectButton "")

/-- Embeds `addCopyButtons` of the text variant: scan every matching `pre` and
inject a button labelled `"Copy"` where none exists. -/
def addCopyButtonsText (ps : List PreElement) : List PreElement :=
  ps.map (injectButton "Copy")

/-- Click handler of the icon variant: `codeElement ? codeElement.innerText : ''`.
The payload of the single `navigator.clipboard.writeText` request. -/
def iconCopyPayload (p : PreElement) : String :=
  (p.firstCodeText).getD ""

/-- Click handler of the text variant: `preElement.innerText`.
The payload of the single `navigator.clipboard.writeText` request. -/
def textCopyPayload (p : PreElement) : String :=
  p.innerText

/-- The list of clipboard-write requests issued by one activation of the
icon variant's control (one `writeText` call). -/
def iconClickRequests (p : PreElement) : List String :=
  [iconCopyPayload p]

/-- The list of clipboard-write requests issued by one activation of the
text variant's control (one `writeText` call). -/
def textClickRequests (p : PreElement) : List String :=
  [textCopyPayload p]

/-! ## Copy-activate state machine (clipboard continuations) -/

/-- AffordanceState of a copy control: idle (initial presentation),
success (check icon / "Copied!"), error ("Error!"). -/
inductive AffordanceState where
  | idle
  | success
  | error
deriving DecidableEq, Repr

/-- Outcome of the asynchronous clipboard write. -/
inductive ClipboardOutcome where
  | ok
  | failed
deriving DecidableEq, Repr

/-- Effects performed by a clipboard continuation: the AffordanceState it
sets, the revert timers it schedules (delay in ms, state to set when the
timer fires), and whether it logs a failure. -/
structure ContinuationEffects where
  state : AffordanceState
  scheduled : List (Nat × AffordanceState)
  logged : Bool
deriving DecidableEq, Repr

/-- Icon variant continuations: on success, swap to the check icon and
schedule restoring the copy icon after 2000ms; on failure, only
`console.error` — the icon is left unchanged (idle) and no timer is set. -/
def iconClickOutcome : ClipboardOutcome → ContinuationEffects
  | .ok => { state := .success, scheduled := [(2000, .idle)], logged := false }
  | .failed => { state := .idle, scheduled := [], logged := true }

/-- Text variant continuations: on success, set `'Copied!'` and schedule
reverting to `'Copy'` after 2000ms; on failure, `console.error`, set
`'Error!'` and schedule reverting to `'Copy'` after 2000ms. -/
def textClickOutcome : ClipboardOutcome → ContinuationEffects
  | .ok => { state := .success, scheduled := [(2000, .idle)], logged := false }
  | .failed => { state := .error, scheduled := [(2000, .idle)], logged := true }

/-! ## Mutation observer callback (part_000, both variants) -/

/-- One MutationRecord of a structural-change batch: its type flag
(`childList` or not) and the number of added nodes. -/
structure MutationRec where
  isChildList : Bool
  addedNodes : Nat
deriving DecidableEq, Repr

/-- Whether a record makes the callback re-scan: the source condition
`mutation.type === 'childList' && mutation.addedNodes.length > 0`. -/
def MutationRec.triggersScan (m : MutationRec) : Bool :=
  m.isChildList && decide (0 < m.addedNodes)

/-- The observer callback of part_000 (`mutations.forEach(...)`): for each
record of the batch whose condition holds, invoke `addCopyButtons` once.
Returns the updated blocks and the number of `addCopyButtons` invocations. -/
def observerCallback (scan : List PreElement → List PreElement)
    (mutations : List MutationRec) (ps : List PreElement) :
    List PreElement × Nat :=
  mutations.foldl
    (fun acc m => if m.triggersScan then (scan acc.1, acc.2 + 1) else acc)
    (ps, 0)

/-- Number of `addCopyButtons` invocations one batch causes. -/
def batchScanCount (mutations : List MutationRec) : Nat :=
  (observerCallback addCopyButtonsIcon mutations []).2

/-! ## Scroll policy engine (part_001) -/

/-- Scroll behavior argument of `scrollTo`: `'auto'` is an instant
(non-animated) scroll, `'smooth'` an animated one. -/
inductive ScrollBehavior where
  | auto
  | smooth
deriving DecidableEq, Repr

/-- A `scrollTo` request on the container: target `top` and behavior. -/
structure ScrollWrite where
  top : Int
  behavior : ScrollBehavior
deriving DecidableEq, Repr

/-- State of the chat-history container and the scroll policy engine. -/
structure ChatState where
  scrollHeight : Int
  clientHeight : Int
  scrollTop : Int
  userIsAtBottom : Bool
  btnVisible : Bool
deriving DecidableEq, Repr

/-- The maximum scroll offset of the container: `scrollTop` is clamped by
the host to `[0, scrollHeight - clientHeight]` (bottom-clamped at 0). -/
def maxScrollOffset (st : ChatState) : Int :=
  max 0 (st.scrollHeight - st.clientHeight)

/-- The flag `userIsAtBottom` is initialized to `true` when the handlers are
installed, before any scroll geometry is read. -/
def initialUserIsAtBottom : Bool := true

/-- Embeds `isScrolledToBottom`: distance from the bottom is within the 5px
threshold, inclusive. -/
def isScrolledToBottom (st : ChatState) : Bool :=
  decide (st.scrollHeight - st.scrollTop - st.clientHeight ≤ 5)

/-- Apply one `scrollTo({top, behavior})` request: the host clamps the
target into the valid scroll range; the behavior does not change the
final position, only whether the move is animated. -/
def applyScrollWrite (st : ChatState) (w : ScrollWrite) : ChatState :=
  { st with scrollTop := max 0 (min w.top (maxScrollOffset st)) }

/-- Embeds `scrollToBottom(behavior)`: a single `scrollTo` request targeting
`scrollHeight` with the given behavior. -/
def scrollToBottomWrite (st : ChatState) (b : ScrollBehavior) : ScrollWrite :=
  { top := st.scrollHeight, behavior := b }

/-- The scroll event handler: recompute `userIsAtBottom` from live
geometry; if at bottom hide the jump button, otherwise show it whenever
the content is scrollable. -/
def scrollHandler (st : ChatState) : ChatState :=
  let atB := isScrolledToBottom st
  { st with
      userIsAtBottom := atB
      btnVisible :=
        if atB then false
        else if decide (st.clientHeight < st.scrollHeight) then true
        else st.btnVisible }

/-- The structural-change (MutationObserver) callback of part_001: if
`userIsAtBottom`, issue one instant `scrollToBottom('auto')`; otherwise do
nothing. Returns the resulting state and the scroll writes performed. -/
def mutationScrollHandler (st : ChatState) : ChatState × List ScrollWrite :=
  if st.userIsAtBottom then
    let w := scrollToBottomWrite st .auto
    (applyScrollWrite st w, [w])
  else
    (st, [])

/-! ## Bootstrapper (initializeObserver, part_000 icon variant) -/

/-- An observable event of the bootstrap loop: a resolution attempt
(`document.getElementById('chat-history')`) at a given virtual time in
ms, or the terminal `console.error` log. -/
inductive BootEvent where
  | attempt (time : Nat)
  | errorLog (time : Nat)
deriving DecidableEq, Repr

/-- Embeds `const maxRetries = 20`. -/
def maxRetries : Nat := 20

/-- Embeds `initializeObserver` on a page where the container is never present: each
invocation is one resolution attempt; it increments `retries`, and while
`retries < maxRetries` schedules the next invocation 100ms later,
otherwise logs the terminal error and stops. The returned list is the
whole trace of events from an invocation at time `time` with counter
`retries`. -/
def initObserverAbsent (retries time : Nat) : List BootEvent :=
  BootEvent.attempt time ::
    (if h : retries + 1 < maxRetries then
      initObserverAbsent (retries + 1) (time + 100)
    else
      [BootEvent.errorLog time])
termination_by maxRetries - retries
decreasing_by simp [maxRetries] at h ⊢; omega

/-- The full bootstrap trace on a page where the container never appears:
the first invocation fires at `DOMContentLoaded` (virtual time 0) with
`retries = 0`. -/
def bootTrace : List BootEvent :=
  initObserverAbsent 0 0

/-- The resolution attempts of a trace. -/
def attemptTimes (evs : List BootEvent) : List Nat :=
  evs.filterMap (fun e => match e with
    | .attempt t => some t
    | .errorLog _ => none)

/-- Consecutive elements of the list are at least `d` apart. -/
def spacedBy (d : Nat) : List Nat → Prop
  | [] => True
  | [_] => True
  | a :: b :: rest => a + d ≤ b ∧ spacedBy d (b :: rest)

instance : DecidablePred (spacedBy 100) := by
  intro l
  induction l with
  | nil => exact .isTrue trivial
  | cons a rest ih =>
    cases rest with
    | nil => exact .isTrue trivial
    | cons b tail =>
      unfold spacedBy
      exact instDecidableAnd

/-! ## Bootstrapper exactly-once installation (part_001) -/

/-- State seen by `setupScrollHandling`: whether the two handles resolve,
whether the container carries the `data-scroll-handler` marker, and the
number of each kind of installation performed on the handles. -/
structure SetupState where
  containerPresent : Bool
  buttonPresent : Bool
  hasMarker : Bool
  scrollListeners : Nat
  clickListeners : Nat
  observers : Nat
deriving DecidableEq, Repr

/-- Embeds `setupScrollHandling`: bail out if either handle is missing or the
container already carries the `data-scroll-handler` marker; otherwise set
the marker and install the scroll listener, the jump-button click
listener and the structural-change observer. -/
def setupScrollHandling (s : SetupState) : SetupState :=
  if !s.containerPresent || !s.buttonPresent || s.hasMarker then s
  else
    { s with
        hasMarker := true
        scrollListeners := s.scrollListeners + 1
        clickListeners := s.clickListeners + 1
        observers := s.observers + 1 }

/-! ## Helper lemmas -/

lemma injectButton_hasCopyButton (label : String) (p : PreElement) :
    (injectButton label p).hasCopyButton = true := by
  unfold injectButton
  by_cases h : p.hasCopyButton = true
  · rw [if_pos h]; exact h
  · rw [if_neg h]
    unfold PreElement.hasCopyButton
    rw [List.any_append]
    simp [PreChild.isCopyButton]

lemma injectButton_of_hasCopyButton (label : String) (p : PreElement)
    (h : p.hasCopyButton = true) : injectButton label p = p := by
  simp [injectButton, h]

lemma injectButton_idem (label : String) (p : PreElement) :
    injectButton label (injectButton label p) = injectButton label p :=
  injectButton_of_hasCopyButton label _ (injectButton_hasCopyButton label p)

lemma hasCopyButton_eq_false_of_count_zero (p : PreElement)
    (h : p.buttonCount = 0) : p.hasCopyButton = false := by
  unfold PreElement.buttonCount at h
  unfold PreElement.hasCopyButton
  rw [List.length_eq_zero] at h
  rw [List.any_eq_false]
  intro c hc
  intro hb
  have : c ∈ p.children.filter PreChild.isCopyButton := List.mem_filter.2 ⟨hc, hb⟩
  simp [h] at this

lemma buttonCount_injectButton_of_zero (label : String) (p : PreElement)
    (h : p.buttonCount = 0) : (injectButton label p).buttonCount = 1 := by
  have hb := hasCopyButton_eq_false_of_count_zero p h
  unfold injectButton
  rw [hb]
  simp only [Bool.false_eq_true, if_false]
  unfold PreElement.buttonCount at h ⊢
  simp [List.filter_append, PreChild.isCopyButton, h]

lemma scanMap_idem (label : String) (ps : List PreElement) :
    (ps.map (injectButton label)).map (injectButton label)
      = ps.map (injectButton label) := by
  rw [List.map_map]
  apply List.map_congr_left
  intro p _
  exact injectButton_idem label p

lemma scanMap_iterate (f : List PreElement → List PreElement)
    (hf : ∀ l, f (f l) = f l) (ps : List PreElement) :
    ∀ N, 1 ≤ N → f^[N] ps = f ps := by
  intro N hN
  induction N with
  | zero => omega
  | succ n ih =>
    rcases Nat.eq_or_lt_of_le hN with h1 | h1
    · simp [← h1]
    · have hn : 1 ≤ n := by omega
      rw [Function.iterate_succ_apply', ih hn, hf]

lemma addCopyButtonsIcon_idem (ps : List PreElement) :
    addCopyButtonsIcon (addCopyButtonsIcon ps) = addCopyButtonsIcon ps :=
  scanMap_idem "" ps

lemma addCopyButtonsText_idem (ps : List PreElement) :
    addCopyButtonsText (addCopyButtonsText ps) = addCopyButtonsText ps :=
  scanMap_idem "Copy" ps

/-! ## Claims -/

/-- C1 (code evaluated at the failing input): after the text variant's
scan attaches its button to a block whose code element's rendered text is
`"print(1)"`, activating the control issues exactly one clipboard-write
request, but its payload is `"print(1)Copy"` — the pre element's
`innerText` including the injected button's own label — not
`"print(1)"`.  The icon variant, in contrast, copies exactly the code
element's text. -/
theorem textVariant_copies_button_label :
    (addCopyButtonsText [⟨[PreChild.code "print(1)"]⟩]).map textClickRequests
        = [["print(1)Copy"]] ∧
    "print(1)Copy" ≠ "print(1)" ∧
    (addCopyButtonsIcon [⟨[PreChild.code "print(1)"]⟩]).map iconClickRequests
        = [["print(1)"]] := by
  refine ⟨rfl, by decide, rfl⟩

/-- C2: injection is idempotent. If every block of the container starts
with no copy button, then for every N ≥ 1, running the scan N times (in
either variant) equals running it once, and leaves every block with
exactly one attached copy button. -/
theorem injection_idempotent (ps : List PreElement) (N : Nat)
    (h0 : ∀ p ∈ ps, p.buttonCount = 0) (hN : 1 ≤ N) :
    (addCopyButtonsIcon^[N] ps = addCopyButtonsIcon ps ∧
      ∀ p ∈ addCopyButtonsIcon^[N] ps, p.buttonCount = 1) ∧
    (addCopyButtonsText^[N] ps = addCopyButtonsText ps ∧
      ∀ p ∈ addCopyButtonsText^[N] ps, p.buttonCount = 1) := by
  have hIcon := scanMap_iterate addCopyButtonsIcon addCopyButtonsIcon_idem ps N hN
  have hText := scanMap_iterate addCopyButtonsText addCopyButtonsText_idem ps N hN
  refine ⟨⟨hIcon, ?_⟩, ⟨hText, ?_⟩⟩
  · rw [hIcon]
    intro p hp
    rcases List.mem_map.1 hp with ⟨q, hq, rfl⟩
    exact buttonCount_injectButton_of_zero "" q (h0 q hq)
  · rw [hText]
    intro p hp
    rcases List.mem_map.1 hp with ⟨q, hq, rfl⟩
    exact buttonCount_injectButton_of_zero "Copy" q (h0 q hq)

/-- Witness for C2 at a concrete container and N = 3. -/
theorem injection_idempotent_witness :
    (∀ p ∈ [PreElement.mk [PreChild.code "x"]], p.buttonCount = 0) ∧
    (1 ≤ 3) ∧
    (addCopyButtonsIcon^[3] [PreElement.mk [PreChild.code "x"]]
        = addCopyButtonsIcon [PreElement.mk [PreChild.code "x"]] ∧
      ∀ p ∈ addCopyButtonsIcon^[3] [PreElement.mk [PreChild.code "x"]],
        p.buttonCount = 1) := by
  refine ⟨by decide, by decide, ?_⟩
  exact (injection_idempotent [PreElement.mk [PreChild.code "x"]] 3
    (by decide) (by decide)).1

lemma mutationScroll_at_bottom (st : ChatState) (hb : st.userIsAtBottom = true)
    (hH : 0 ≤ st.scrollHeight) (hC : 0 ≤ st.clientHeight) :
    (mutationScrollHandler st).1.scrollTop = maxScrollOffset st ∧
    (mutationScrollHandler st).2
      = [{ top := st.scrollHeight, behavior := ScrollBehavior.auto }] := by
  unfold mutationScrollHandler
  rw [hb]
  simp only [if_true]
  constructor
  · unfold applyScrollWrite scrollToBottomWrite maxScrollOffset
    simp only
    omega
  · rfl

/-- C3: auto-follow. If `userIsAtBottom` is true when the structural-change
handler runs (the state carrying the batch's new geometry), then the
handler issues exactly one instant (`'auto'`, non-animated) scroll request
and the resulting scroll position is the new maximum scroll offset. -/
theorem auto_follow (st : ChatState) (hb : st.userIsAtBottom = true)
    (hH : 0 ≤ st.scrollHeight) (hC : 0 ≤ st.clientHeight) :
    (mutationScrollHandler st).1.scrollTop = maxScrollOffset st ∧
    (mutationScrollHandler st).2
      = [{ top := st.scrollHeight, behavior := ScrollBehavior.auto }] :=
  mutationScroll_at_bottom st hb hH hC

/-- Witness for C3 at a concrete state. -/
theorem auto_follow_witness :
    ((⟨1000, 500, 120, true, false⟩ : ChatState).userIsAtBottom = true) ∧
    (mutationScrollHandler ⟨1000, 500, 120, true, false⟩).1.scrollTop
      = maxScrollOffset ⟨1000, 500, 120, true, false⟩ :=
  ⟨rfl, (auto_follow ⟨1000, 500, 120, true, false⟩ rfl
      (by decide) (by decide)).1⟩

/-- C4: non-interference. If `userIsAtBottom` is false when the
structural-change handler runs, the handler performs no scroll write at
all and leaves the state — in particular the scroll position — unchanged. -/
theorem non_interference (st : ChatState) (hb : st.userIsAtBottom = false) :
    mutationScrollHandler st = (st, []) := by
  unfold mutationScrollHandler
  rw [hb]
  simp

/-- Witness for C4 at a concrete state. -/
theorem non_interference_witness :
    mutationScrollHandler ⟨1000, 500, 120, false, true⟩
      = (⟨1000, 500, 120, false, true⟩, []) :=
  non_interference _ rfl

/-- C5: inclusive threshold boundary. Every manual scroll event recomputes
`userIsAtBottom` as `scrollHeight - scrollTop - clientHeight ≤ 5`; with
`scrollHeight = 1000`, `clientHeight = 500`, `scrollTop = 495` (distance
exactly 5) the flag becomes true, and with `scrollTop = 494` (distance 6)
it becomes false. -/
theorem threshold_boundary :
    (∀ st : ChatState, (scrollHandler st).userIsAtBottom
        = decide (st.scrollHeight - st.scrollTop - st.clientHeight ≤ 5)) ∧
    (scrollHandler ⟨1000, 500, 495, false, false⟩).userIsAtBottom = true ∧
    (scrollHandler ⟨1000, 500, 494, true, false⟩).userIsAtBottom = false :=
  ⟨fun _ => rfl, by decide, by decide⟩

/-- C10: implicit initial-state behavior. `userIsAtBottom` starts out
true, set without reading any geometry; hence any structural-change batch
processed before the first scroll event forces one instant scroll to the
maximum offset, whatever the container's actual `scrollTop` is. -/
theorem initial_state_forces_scroll (sH cH sT : Int) (bv : Bool)
    (hH : 0 ≤ sH) (hC : 0 ≤ cH) :
    initialUserIsAtBottom = true ∧
    (mutationScrollHandler ⟨sH, cH, sT, initialUserIsAtBottom, bv⟩).1.scrollTop
      = maxScrollOffset ⟨sH, cH, sT, initialUserIsAtBottom, bv⟩ ∧
    (mutationScrollHandler ⟨sH, cH, sT, initialUserIsAtBottom, bv⟩).2
      = [{ top := sH, behavior := ScrollBehavior.auto }] := by
  refine ⟨rfl, ?_⟩
  exact mutationScroll_at_bottom _ rfl hH hC

/-- Witness for C10 at a concrete state far from the bottom. -/
theorem initial_state_forces_scroll_witness :
    (0 ≤ (2000 : Int)) ∧
    (mutationScrollHandler ⟨2000, 500, 0, initialUserIsAtBottom, false⟩).1.scrollTop
      = maxScrollOffset ⟨2000, 500, 0, initialUserIsAtBottom, false⟩ :=
  ⟨by decide, (initial_state_forces_scroll 2000 500 0 false
      (by decide) (by decide)).2.1⟩

lemma initObserverAbsent_step (r t : Nat) (h : r + 1 < maxRetries) :
    initObserverAbsent r t
      = BootEvent.attempt t :: initObserverAbsent (r + 1) (t + 100) := by
  rw [initObserverAbsent.eq_def, dif_pos h]

lemma initObserverAbsent_last (r t : Nat) (h : ¬ (r + 1 < maxRetries)) :
    initObserverAbsent r t
      = [BootEvent.attempt t, BootEvent.errorLog t] := by
  rw [initObserverAbsent.eq_def, dif_neg h]

lemma bootTrace_eq :
    bootTrace = [BootEvent.attempt 0, BootEvent.attempt 100, BootEvent.attempt 200, BootEvent.attempt 300, BootEvent.attempt 400, BootEvent.attempt 500, BootEvent.attempt 600, BootEvent.attempt 700, BootEvent.attempt 800, BootEvent.attempt 900, BootEvent.attempt 1000, BootEvent.attempt 1100, BootEvent.attempt 1200, BootEvent.attempt 1300, BootEvent.attempt 1400, BootEvent.attempt 1500, BootEvent.attempt 1600, BootEvent.attempt 1700, BootEvent.attempt 1800, BootEvent.attempt 1900,
      BootEvent.errorLog 1900] := by
  rw [bootTrace]
  rw [initObserverAbsent_step 0 0 (by decide),
    initObserverAbsent_step 1 100 (by decide),
    initObserverAbsent_step 2 200 (by decide),
    initObserverAbsent_step 3 300 (by decide),
    initObserverAbsent_step 4 400 (by decide),
    initObserverAbsent_step 5 500 (by decide),
    initObserverAbsent_step 6 600 (by decide),
    initObserverAbsent_step 7 700 (by decide),
    initObserverAbsent_step 8 800 (by decide),
    initObserverAbsent_step 9 900 (by decide),
    initObserverAbsent_step 10 1000 (by decide),
    initObserverAbsent_step 11 1100 (by decide),
    initObserverAbsent_step 12 1200 (by decide),
    initObserverAbsent_step 13 1300 (by decide),
    initObserverAbsent_step 14 1400 (by decide),
    initObserverAbsent_step 15 1500 (by decide),
    initObserverAbsent_step 16 1600 (by decide),
    initObserverAbsent_step 17 1700 (by decide),
    initObserverAbsent_step 18 1800 (by decide),
    initObserverAbsent_last 19 1900 (by decide)]

/-- C6: bootstrap retry bound. When the container is never present, the
bootstrap trace contains exactly 20 resolution attempts, consecutive
attempts at least 100ms apart, and consists of those attempts followed by
one terminal error log — after which nothing further happens. -/
theorem bootstrap_retry_bound :
    (attemptTimes bootTrace).length = 20 ∧
    spacedBy 100 (attemptTimes bootTrace) ∧
    bootTrace = (attemptTimes bootTrace).map BootEvent.attempt
        ++ [BootEvent.errorLog 1900] := by
  rw [bootTrace_eq]
  exact ⟨by decide, by decide, by decide⟩

/-- C7 counterexample: in the icon variant a failed clipboard write is
logged but schedules no revert timer at all — contradicting the claim
that in either variant a revert to idle is scheduled 2000ms after the
failure. -/
theorem icon_failure_schedules_no_revert :
    (iconClickOutcome ClipboardOutcome.failed).logged = true ∧
    (iconClickOutcome ClipboardOutcome.failed).scheduled = [] := by
  decide

/-- C7 as amended: a failed clipboard write is always logged; the text
variant, which has a distinct error presentation, enters the error state
and schedules a revert to idle 2000ms later; the icon variant leaves the
affordance idle (its presentation never changed) and schedules no revert. -/
theorem clipboard_failure_handling :
    textClickOutcome ClipboardOutcome.failed
      = ⟨AffordanceState.error, [(2000, AffordanceState.idle)], true⟩ ∧
    iconClickOutcome ClipboardOutcome.failed
      = ⟨AffordanceState.idle, [], true⟩ := by
  decide

lemma observerCallback_count (scan : List PreElement → List PreElement) :
    ∀ (muts : List MutationRec) (acc : List PreElement × Nat),
      (muts.foldl
          (fun acc m => if m.triggersScan then (scan acc.1, acc.2 + 1) else acc)
          acc).2
        = acc.2 + (muts.filter MutationRec.triggersScan).length := by
  intro muts
  induction muts with
  | nil => intro acc; simp
  | cons m rest ih =>
    intro acc
    rw [List.foldl_cons, List.filter_cons]
    by_cases h : m.triggersScan = true
    · rw [if_pos h, if_pos h, ih]
      simp only [List.length_cons]
      omega
    · rw [if_neg h, if_neg h, ih]

/-- C8 counterexample: a single batch of two childList records, each with
one added node, causes two `addCopyButtons` invocations, not one. -/
theorem batch_two_records_two_scans :
    MutationRec.triggersScan ⟨true, 1⟩ = true ∧
    batchScanCount [⟨true, 1⟩, ⟨true, 1⟩] = 2 := by
  decide

/-- C8 as amended: for every batch containing at least one childList
record with added nodes, `addCopyButtons` is invoked at least once —
exactly once per such record in the batch, not once per batch. -/
theorem batch_scan_count (muts : List MutationRec)
    (h : ∃ m ∈ muts, m.triggersScan = true) :
    batchScanCount muts = (muts.filter MutationRec.triggersScan).length ∧
    1 ≤ batchScanCount muts := by
  have hc : batchScanCount muts
      = (muts.filter MutationRec.triggersScan).length := by
    unfold batchScanCount observerCallback
    simpa using observerCallback_count addCopyButtonsIcon muts ([], 0)
  refine ⟨hc, ?_⟩
  rw [hc]
  rcases h with ⟨m, hm, ht⟩
  exact List.length_pos_of_mem (List.mem_filter.2 ⟨hm, ht⟩)

/-- Witness for C8 (amended) at a concrete one-record batch. -/
theorem batch_scan_count_witness :
    batchScanCount [⟨true, 2⟩]
        = (List.filter MutationRec.triggersScan [⟨true, 2⟩]).length ∧
    1 ≤ batchScanCount [⟨true, 2⟩] :=
  batch_scan_count [⟨true, 2⟩] ⟨⟨true, 2⟩, by decide, by decide⟩

/-- C9: exactly-once installation. When both handles resolve and the
container does not yet carry the `data-scroll-handler` marker, the
initializer sets the marker and installs one scroll listener, one click
listener and one structural-change observer; and any number of later
re-invocations on the marked handles change nothing — no second listener
or observer is installed. -/
theorem exactly_once_installation (s : SetupState)
    (hc : s.containerPresent = true) (hb : s.buttonPresent = true)
    (hm : s.hasMarker = false) :
    (setupScrollHandling s).hasMarker = true ∧
    (setupScrollHandling s).scrollListeners = s.scrollListeners + 1 ∧
    (setupScrollHandling s).clickListeners = s.clickListeners + 1 ∧
    (setupScrollHandling s).observers = s.observers + 1 ∧
    ∀ n : Nat, setupScrollHandling^[n] (setupScrollHandling s)
      = setupScrollHandling s := by
  have hstep : setupScrollHandling s
      = { s with
            hasMarker := true
            scrollListeners := s.scrollListeners + 1
            clickListeners := s.clickListeners + 1
            observers := s.observers + 1 } := by
    unfold setupScrollHandling
    rw [hc, hb, hm]
    simp
  have hfix : ∀ t : SetupState, t.hasMarker = true → setupScrollHandling t = t := by
    intro t ht
    unfold setupScrollHandling
    rw [ht]
    simp
  refine ⟨by rw [hstep], by rw [hstep], by rw [hstep], by rw [hstep], ?_⟩
  intro n
  induction n with
  | zero => rfl
  | succ k ih =>
    rw [Function.iterate_succ_apply', ih, hfix]
    rw [hstep]

/-- Witness for C9 at a concrete fresh state. -/
theorem exactly_once_installation_witness :
    (setupScrollHandling ⟨true, true, false, 0, 0, 0⟩).hasMarker = true ∧
    setupScrollHandling^[2] (setupScrollHandling ⟨true, true, false, 0, 0, 0⟩)
      = setupScrollHandling ⟨true, true, false, 0, 0, 0⟩ :=
  ⟨(exactly_once_installation ⟨true, true, false, 0, 0, 0⟩ rfl rfl rfl).1,
   (exactly_once_installation ⟨true, true, false, 0, 0, 0⟩ rfl rfl rfl).2.2.2.2 2⟩
